import Mathlib

/-!
Verification of the OrcaSlicer invoice-generator core
(`src/slic3r/GUI/InvoiceDialog.cpp` / `.hpp`).

C++ `double` arithmetic is embedded as exact rational arithmetic (`ℚ`),
`int` as `ℤ`, `std::string` as `List Char`. The flat string-keyed
`AppConfig` store is embedded as a function from keys to stored strings
(absent key ↦ empty string, matching `AppConfig::get`).
-/

namespace Invoice

/-- Mirrors `struct FilamentData` of InvoiceDialog.hpp. -/
structure FilamentData where
  extruder_id : ℕ
  fil_name : List Char
  color : List Char
  weight_g : ℚ
  cost_per_kg : ℚ
  calculated_cost : ℚ
  deriving DecidableEq

/-- Mirrors the per-profile fields of `struct JobProfile` / the dialog's
input controls: the five free-text fields plus the 21 numeric fields read
by `calculate_costs` and (de)serialized by `save_job_profile` /
`load_job_profile`. -/
structure JobParams where
  customer_name : List Char
  customer_email : List Char
  customer_phone : List Char
  job_name : List Char
  job_description : List Char
  parts_per_plate : ℤ
  num_plates : ℤ
  failure_rate : ℚ
  labor_rate : ℚ
  prep_time : ℚ
  setup_time : ℚ
  finishing_per_part : ℚ
  finishing_per_plate : ℚ
  printer_cost : ℚ
  printer_lifespan : ℚ
  maintenance_cost : ℚ
  power_watts : ℚ
  electricity_cost : ℚ
  bed_cost : ℚ
  bed_lifespan : ℚ
  nozzle_cost : ℚ
  nozzle_lifespan_kg : ℚ
  solvent_cost : ℚ
  solving_time : ℚ
  tank_power : ℚ
  finishing_materials : ℚ
  markup_percent : ℚ
  deriving DecidableEq

/-- The `m_calc_*` result fields cached by `calculate_costs`
(InvoiceDialog.hpp lines 206-217). -/
structure CostBreakdown where
  material_cost : ℚ
  labor_cost : ℚ
  machine_cost : ℚ
  tooling_cost : ℚ
  postprocess_cost : ℚ
  subtotal : ℚ
  failure_adjustment : ℚ
  cost_per_part : ℚ
  markup_amount : ℚ
  final_price : ℚ
  total_job_cost : ℚ
  print_time_hours : ℚ
  deriving DecidableEq

/-- `InvoiceDialog::calculate_costs` (InvoiceDialog.cpp lines 537-614) as a
pure function of the numeric parameters, the filament table and the parsed
print time. The source reads `solvent_cost` into a local variable
(line 573) that is never used in any formula; the model therefore has no
occurrence of `P.solvent_cost` on any result path, exactly like the
source. -/
def calculate_costs (P : JobParams) (fil : List FilamentData) (print_time_hours : ℚ) : CostBreakdown :=
  let total_material_cost := (fil.map (fun d => d.calculated_cost)).sum
  let parts_per_plate : ℤ := P.parts_per_plate
  let num_plates : ℤ := P.num_plates
  let failure_rate := P.failure_rate / 100
  let markup_percent := P.markup_percent / 100
  let labor_time_minutes := P.prep_time + P.setup_time + P.finishing_per_part * (parts_per_plate : ℚ) + P.finishing_per_plate
  let labor_cost := (labor_time_minutes / 60) * P.labor_rate
  let depreciation_per_hour := P.printer_cost / P.printer_lifespan
  let power_cost_per_hour := (P.power_watts / 1000) * P.electricity_cost
  let machine_hourly_rate := depreciation_per_hour + P.maintenance_cost + power_cost_per_hour
  let machine_cost := machine_hourly_rate * print_time_hours
  let c_bed := (P.bed_cost / P.bed_lifespan) * print_time_hours
  let total_filament_kg := (fil.map (fun d => d.weight_g / 1000)).sum
  let c_nozzle := (P.nozzle_cost / P.nozzle_lifespan_kg) * total_filament_kg
  let tooling_cost := c_bed + c_nozzle
  let c_tank_power := (P.tank_power / 1000) * P.electricity_cost * P.solving_time
  let postprocess_cost := c_tank_power + P.finishing_materials
  let subtotal := total_material_cost + labor_cost + machine_cost + tooling_cost + postprocess_cost
  let failure_adjustment := if failure_rate < 1 then subtotal / (1 - failure_rate) - subtotal else 0
  let total_plate_cost := subtotal + failure_adjustment
  let cost_per_part := if parts_per_plate > 0 then total_plate_cost / (parts_per_plate : ℚ) else total_plate_cost
  let markup_amount := cost_per_part * markup_percent
  let final_price := cost_per_part + markup_amount
  let total_parts := parts_per_plate * num_plates
  let total_job_cost := final_price * (total_parts : ℚ)
  { material_cost := total_material_cost
    labor_cost := labor_cost
    machine_cost := machine_cost
    tooling_cost := tooling_cost
    postprocess_cost := postprocess_cost
    subtotal := subtotal
    failure_adjustment := failure_adjustment
    cost_per_part := cost_per_part
    markup_amount := markup_amount
    final_price := final_price
    total_job_cost := total_job_cost
    print_time_hours := print_time_hours }

/-- The literal pi constant used by `populate_filament_data`
(InvoiceDialog.cpp line 158). -/
def piCode : ℚ := 3.14159265359

/-- Weight in grams computed by `InvoiceDialog::populate_filament_data`
for one extruder entry (lines 157-160): the raw consumption `usage` is
multiplied by the cross-section area `piCode * (diameter/2)^2` to obtain
`volume_mm3`, and the weight is `volume_mm3 * density / 1000`. -/
def resolved_weight_g (usage density diameter : ℚ) : ℚ :=
  let radius := diameter / 2
  let area := piCode * radius * radius
  let volume_mm3 := usage * area
  volume_mm3 * density / 1000

/-- Weight selection of `populate_filament_data` including the
single-extruder override (lines 162-164): when there is exactly one
extruder and the slicer-reported total weight is positive, that total
replaces the density-derived estimate. -/
def entry_weight_g (usage density diameter : ℚ) (single_extruder : Bool) (total_weight : ℚ) : ℚ :=
  if single_extruder = true ∧ 0 < total_weight then total_weight
  else resolved_weight_g usage density diameter

/-- Per-entry cost formula of `populate_filament_data` (line 166). -/
def entry_calculated_cost (weight_g cost_per_kg : ℚ) : ℚ :=
  (weight_g / 1000) * cost_per_kg

/-- COUNTEREXAMPLE to C2 — at the spec's own example input (consumption
100, density 1.24 g/cm³, diameter 1.75 mm, no override) the code's weight
is about 0.2982 g, not `consumption * density / 1000 = 0.124 g`: the
cross-section area does enter the weight computation. -/
theorem resolved_weight_uses_area_counterexample :
    resolved_weight_g 100 (124/100) (175/100) ≠ 100 * (124/100) / 1000 := by
  norm_num [resolved_weight_g, piCode]

/-- CLAIM C2 (as amended) — For every extruder entry produced without the
single-extruder total-weight override, the raw consumption quantity is
treated as a quantity that is multiplied by the cross-section area
`piCode * (diameter/2)^2`: `weight_g = consumption * area * density / 1000`,
so the area does enter the weight computation; with the override the
slicer total is used unchanged.  At the spec example (consumption 100,
density 1.24, diameter 1.75) the weight lies near 0.2982 g and the
resulting cost at 20 $/kg near 0.00596 $. -/
theorem resolved_weight_formula (u ρ d tw : ℚ) :
    resolved_weight_g u ρ d = u * (piCode * (d / 2) * (d / 2)) * ρ / 1000
    ∧ entry_weight_g u ρ d false tw = resolved_weight_g u ρ d
    ∧ (0 < tw → entry_weight_g u ρ d true tw = tw)
    ∧ (2981/10000 < resolved_weight_g 100 (124/100) (175/100)
        ∧ resolved_weight_g 100 (124/100) (175/100) < 2983/10000)
    ∧ (596/100000 < entry_calculated_cost (resolved_weight_g 100 (124/100) (175/100)) 20
        ∧ entry_calculated_cost (resolved_weight_g 100 (124/100) (175/100)) 20 < 597/100000) := by
  refine ⟨rfl, ?_, ?_,
    by constructor <;> norm_num [resolved_weight_g, piCode],
    by constructor <;> norm_num [resolved_weight_g, entry_calculated_cost, piCode]⟩
  · simp [entry_weight_g]
  · intro h
    simp [entry_weight_g, h]

/-- Witness for C2 (amended) at the spec example with the override active. -/
theorem resolved_weight_formula_witness :
    (0 : ℚ) < 5 ∧ entry_weight_g 100 (124/100) (175/100) true 5 = 5 :=
  ⟨by norm_num, (resolved_weight_formula 100 (124/100) (175/100) 5).2.2.1 (by norm_num)⟩

/-- The constructor defaults installed in `InvoiceDialog::InvoiceDialog`
(lines 37-58); text fields start empty. -/
def defaultParams : JobParams :=
  { customer_name := []
    customer_email := []
    customer_phone := []
    job_name := []
    job_description := []
    parts_per_plate := 1
    num_plates := 1
    failure_rate := 5
    labor_rate := 20
    prep_time := 15
    setup_time := 10
    finishing_per_part := 5
    finishing_per_plate := 0
    printer_cost := 300
    printer_lifespan := 15000
    maintenance_cost := 1/10
    power_watts := 130
    electricity_cost := 15/100
    bed_cost := 30
    bed_lifespan := 5000
    nozzle_cost := 2
    nozzle_lifespan_kg := 25
    solvent_cost := 0
    solving_time := 0
    tank_power := 0
    finishing_materials := 0
    markup_percent := 50 }

/-!  Decimal text (de)serialization: models `std::to_string` on `int` and
`double` (the latter renders a fixed six digits after the decimal point)
and the numeric parsers `std::stoi` / `std::stod` used by
`load_job_profile`. -/

/-- Numeric value of one decimal digit character. -/
def parseDigit (c : Char) : ℕ := c.toNat - 48

/-- Decimal rendering of a natural number, most significant digit first
(the digit portion of `std::to_string`). -/
def renderNat (n : ℕ) : List Char :=
  if n = 0 then ['0'] else ((Nat.digits 10 n).reverse).map Nat.digitChar

/-- Accumulator-style decimal parse of a digit string. -/
def parseNatAcc (l : List Char) : ℕ := l.foldl (fun a c => 10 * a + parseDigit c) 0

theorem parseDigit_digitChar {d : ℕ} (hd : d < 10) : parseDigit (Nat.digitChar d) = d := by
  interval_cases d <;> rfl

theorem isDigit_digitChar {d : ℕ} (hd : d < 10) : (Nat.digitChar d).isDigit = true := by
  interval_cases d <;> rfl

theorem foldl_digits (ds : List ℕ) (h : ∀ d ∈ ds, d < 10) (a : ℕ) :
    ((ds.reverse).map Nat.digitChar).foldl (fun a c => 10 * a + parseDigit c) a
      = a * 10 ^ ds.length + Nat.ofDigits 10 ds := by
  induction ds generalizing a with
  | nil => simp
  | cons d tl ih =>
    rw [List.reverse_cons, List.map_append, List.foldl_append,
      ih (fun x hx => h x (List.mem_cons_of_mem _ hx))]
    simp only [List.map_cons, List.map_nil, List.foldl_cons, List.foldl_nil,
      parseDigit_digitChar (h d (List.mem_cons_self _ _)), Nat.ofDigits_cons,
      List.length_cons, pow_succ]
    ring

theorem parseNatAcc_renderNat (n : ℕ) : parseNatAcc (renderNat n) = n := by
  unfold renderNat parseNatAcc
  split
  · simp_all [parseDigit]
  · rw [foldl_digits _ (fun d hd => Nat.digits_lt_base (by norm_num) hd) 0,
      Nat.ofDigits_digits]
    ring

theorem renderNat_ne_nil (n : ℕ) : renderNat n ≠ [] := by
  unfold renderNat
  split
  · simp
  · simp [Nat.digits_ne_nil_iff_ne_zero, *]

theorem renderNat_all_digits {n : ℕ} {c : Char} (hc : c ∈ renderNat n) : c.isDigit = true := by
  unfold renderNat at hc
  split at hc
  · rcases List.mem_singleton.mp hc with rfl
    rfl
  · obtain ⟨d, hd, rfl⟩ := List.mem_map.mp hc
    exact isDigit_digitChar (Nat.digits_lt_base (by norm_num) (List.mem_reverse.mp hd))

theorem renderNat_length_le {n k : ℕ} (hk : 1 ≤ k) (h : n < 10 ^ k) :
    (renderNat n).length ≤ k := by
  unfold renderNat
  split
  · simpa using hk
  · rw [List.length_map, List.length_reverse]
    by_contra hlt
    push_neg at hlt
    have h1 : 10 ^ (Nat.digits 10 n).length ≤ 10 * n :=
      Nat.base_pow_length_digits_le 10 n (by norm_num) (by assumption)
    have h2 : 10 ^ (k + 1) ≤ 10 ^ (Nat.digits 10 n).length :=
      Nat.pow_le_pow_right (by norm_num) hlt
    have h3 : 10 * 10 ^ k ≤ 10 * n := by
      calc 10 * 10 ^ k = 10 ^ (k + 1) := by ring
      _ ≤ 10 ^ (Nat.digits 10 n).length := h2
      _ ≤ 10 * n := h1
    omega

/-- Left-pads a digit string with zeros to width `k` (fraction rendering
of `std::to_string(double)`). -/
def padTo (k : ℕ) (l : List Char) : List Char := List.replicate (k - l.length) '0' ++ l

theorem parseNatAcc_padTo (k : ℕ) (l : List Char) : parseNatAcc (padTo k l) = parseNatAcc l := by
  unfold padTo parseNatAcc
  rw [List.foldl_append]
  congr 1
  induction (k - l.length) with
  | zero => rfl
  | succ m ih => simpa [List.replicate_succ, parseDigit] using ih

theorem padTo_all_digits {k : ℕ} {l : List Char} (hl : ∀ c ∈ l, c.isDigit = true) :
    ∀ c ∈ padTo k l, c.isDigit = true := by
  intro c hc
  rcases List.mem_append.mp hc with h | h
  · rcases List.eq_of_mem_replicate h with rfl
    rfl
  · exact hl c h

theorem padTo_length {k : ℕ} {l : List Char} (h : l.length ≤ k) : (padTo k l).length = k := by
  simp [padTo]
  omega

/-- `std::to_string` on `int`. -/
def renderInt (i : ℤ) : List Char :=
  if i < 0 then '-' :: renderNat i.natAbs else renderNat i.toNat

/-- `std::to_string` on `double` (the C `%f` conversion): the value
rounded to six decimal places, rendered as integer part, decimal point,
and exactly six fraction digits. -/
def toString6 (q : ℚ) : List Char :=
  let n : ℕ := (round (|q| * 1000000)).toNat
  let mag := renderNat (n / 1000000) ++ '.' :: padTo 6 (renderNat (n % 1000000))
  if q < 0 then '-' :: mag else mag

/-- The value that survives the six-decimal text round-trip. -/
def round6 (q : ℚ) : ℚ := (round (q * 1000000) : ℚ) / 1000000

/-- Model of `std::stod` on the decimal forms relevant here: optional
minus sign, integer digits, optional decimal point and fraction digits;
`none` (the thrown `std::invalid_argument`) when no digits can be
converted at all. Trailing unconvertible characters are ignored, as in
`std::stod`. -/
def stodQ (l : List Char) : Option ℚ :=
  let l1 := if l.head? = some '-' then l.tail else l
  let ip := l1.takeWhile Char.isDigit
  let rest1 := l1.dropWhile Char.isDigit
  let fp := if rest1.head? = some '.' then rest1.tail.takeWhile Char.isDigit else []
  if ip = [] ∧ fp = [] then none
  else some ((if l.head? = some '-' then -1 else 1) *
    ((parseNatAcc ip : ℚ) + (parseNatAcc fp : ℚ) / 10 ^ fp.length))

/-- Model of `std::stoi`: optional minus sign then decimal digits; `none`
(the thrown `std::invalid_argument`) when no digit is found. -/
def stoiZ (l : List Char) : Option ℤ :=
  let l1 := if l.head? = some '-' then l.tail else l
  let ip := l1.takeWhile Char.isDigit
  if ip = [] then none
  else some ((if l.head? = some '-' then -1 else 1) * (parseNatAcc ip : ℤ))

theorem takeWhile_append_all {p : Char → Bool} (a b : List Char) (h : ∀ x ∈ a, p x = true) :
    (a ++ b).takeWhile p = a ++ b.takeWhile p := by
  induction a with
  | nil => simp
  | cons c t ih =>
    simp only [List.cons_append, List.takeWhile_cons, h c (List.mem_cons_self _ _), if_true]
    rw [ih (fun x hx => h x (List.mem_cons_of_mem _ hx))]

theorem dropWhile_append_all {p : Char → Bool} (a b : List Char) (h : ∀ x ∈ a, p x = true) :
    (a ++ b).dropWhile p = b.dropWhile p := by
  induction a with
  | nil => simp
  | cons c t ih =>
    simp only [List.cons_append, List.dropWhile_cons, h c (List.mem_cons_self _ _), if_true]
    exact ih (fun x hx => h x (List.mem_cons_of_mem _ hx))

theorem takeWhile_all {p : Char → Bool} (l : List Char) (h : ∀ x ∈ l, p x = true) :
    l.takeWhile p = l := by
  have := takeWhile_append_all l [] h
  simpa using this

/-- Characterization of the `std::stod` model on a rendered
`digits.digits` string. -/
theorem stodQ_digits_point_digits (a b : List Char)
    (ha : a ≠ []) (had : ∀ c ∈ a, c.isDigit = true) (hbd : ∀ c ∈ b, c.isDigit = true) :
    stodQ (a ++ '.' :: b) = some ((parseNatAcc a : ℚ) + (parseNatAcc b : ℚ) / 10 ^ b.length) := by
  obtain ⟨c, t, rfl⟩ : ∃ c t, a = c :: t := by
    cases a with
    | nil => exact absurd rfl ha
    | cons c t => exact ⟨c, t, rfl⟩
  have hc : c.isDigit = true := had c (List.mem_cons_self _ _)
  have hcm : ((c :: t) ++ '.' :: b).head? = some '-' → False := by
    intro h
    simp only [List.cons_append, List.head?_cons, Option.some.injEq] at h
    subst h
    simp at hc
  simp only [stodQ, if_neg hcm]
  rw [takeWhile_append_all _ _ had, dropWhile_append_all _ _ had]
  have hdot : ('.' : Char).isDigit = false := by decide
  simp only [List.takeWhile_cons, List.dropWhile_cons, hdot, Bool.false_eq_true, if_false,
    List.append_nil, List.head?_cons, Option.some.injEq, if_pos rfl, List.tail_cons]
  rw [takeWhile_all b hbd]
  rw [if_neg (by simp)]
  simp

/-- Characterization of the `std::stoi` model on a rendered digit
string. -/
theorem stoiZ_digits (a : List Char) (ha : a ≠ []) (had : ∀ c ∈ a, c.isDigit = true)
    (b : List Char) (hb : ∀ c ∈ b, c.isDigit = false) :
    stoiZ (a ++ b) = some (parseNatAcc a : ℤ) := by
  obtain ⟨c, t, rfl⟩ : ∃ c t, a = c :: t := by
    cases a with
    | nil => exact absurd rfl ha
    | cons c t => exact ⟨c, t, rfl⟩
  have hc : c.isDigit = true := had c (List.mem_cons_self _ _)
  have hcm : ((c :: t) ++ b).head? = some '-' → False := by
    intro h
    simp only [List.cons_append, List.head?_cons, Option.some.injEq] at h
    subst h
    simp at hc
  simp only [stoiZ, if_neg hcm]
  rw [takeWhile_append_all _ _ had]
  have hbt : b.takeWhile Char.isDigit = [] := by
    cases b with
    | nil => rfl
    | cons x r => simp [List.takeWhile_cons, hb x (List.mem_cons_self _ _)]
  rw [hbt, List.append_nil]
  rw [if_neg (by simp)]
  simp

theorem stoiZ_renderInt (i : ℤ) : stoiZ (renderInt i) = some i := by
  unfold renderInt
  by_cases hi : i < 0
  · rw [if_pos hi]
    have hd : ∀ c ∈ renderNat i.natAbs, c.isDigit = true := fun c hc => renderNat_all_digits hc
    have hna : (i.natAbs : ℤ) = -i := Int.ofNat_natAbs_of_nonpos (le_of_lt hi)
    simp [stoiZ, takeWhile_all _ hd, renderNat_ne_nil _, parseNatAcc_renderNat, hna]
  · rw [if_neg hi]
    have := stoiZ_digits (renderNat i.toNat) (renderNat_ne_nil _)
      (fun c hc => renderNat_all_digits hc) [] (by simp)
    rw [List.append_nil] at this
    rw [this, parseNatAcc_renderNat]
    congr 1
    omega

theorem round_nonneg_of_nonneg {x : ℚ} (hx : 0 ≤ x) : 0 ≤ round x := by
  rw [round_eq]
  exact Int.le_floor.mpr (by push_cast; linarith)

theorem stodQ_toString6 {q : ℚ} (hq : 0 ≤ q) : stodQ (toString6 q) = some (round6 q) := by
  have habs : |q| = q := abs_of_nonneg hq
  have hnlt : ¬ q < 0 := not_lt.mpr hq
  have hr : (0 : ℤ) ≤ round (q * 1000000) :=
    round_nonneg_of_nonneg (by positivity)
  unfold toString6
  rw [habs, if_neg hnlt]
  set n : ℕ := (round (q * 1000000)).toNat with hn
  have hfrac_lt : n % 1000000 < 10 ^ 6 := by
    have := Nat.mod_lt n (show 0 < 1000000 by norm_num)
    norm_num
    omega
  have hlen : (padTo 6 (renderNat (n % 1000000))).length = 6 :=
    padTo_length (renderNat_length_le (by norm_num) hfrac_lt)
  rw [stodQ_digits_point_digits _ _ (renderNat_ne_nil _)
    (fun c hc => renderNat_all_digits hc)
    (padTo_all_digits (fun c hc => renderNat_all_digits hc))]
  rw [parseNatAcc_padTo, parseNatAcc_renderNat, parseNatAcc_renderNat, hlen]
  congr 1
  have hne : ((round (q * 1000000) : ℤ) : ℚ) = (n : ℚ) := by
    exact_mod_cast (Int.toNat_of_nonneg hr).symm
  unfold round6
  rw [hne]
  have hq6 : ((n / 1000000 : ℕ) : ℚ) * 1000000 + ((n % 1000000 : ℕ) : ℚ) = (n : ℚ) := by
    exact_mod_cast (by omega : (n / 1000000) * 1000000 + n % 1000000 = n)
  have h10 : (10 : ℚ) ^ 6 = 1000000 := by norm_num
  rw [h10]
  field_simp
  linarith [hq6]

/-!  The flat string-keyed `AppConfig` store and the job-profile
(de)serialization built on it (`save_job_profile`, `load_job_profile`,
`delete_job_profile`, lines 658-802). -/

/-- The persistent store boundary: an opaque string-keyed map; a key that
was never set reads as the empty string, matching `AppConfig::get`. -/
def Store := List Char → List Char

/-- `AppConfig::get`. -/
def Store.get (s : Store) (k : List Char) : List Char := s k

/-- `AppConfig::set`. -/
def Store.set (s : Store) (k v : List Char) : Store := fun q => if q = k then v else s q

/-- A store in which every key is absent. -/
def emptyStore : Store := fun _ => []

/-- The reserved registry key `"invoice_profiles"` (lines 753, 766, 778,
785, 796). -/
def regKey : List Char := "invoice_profiles".data

/-- The per-profile key namespace `"invoice_job_" + name + "_"`
(lines 663, 715). -/
def jobPfx (name : List Char) : List Char := "invoice_job_".data ++ name ++ "_".data

/-- All segments read by repeated `std::getline(ss, item, ';')`; a
trailing delimiter ends the final successful read, so the result of
`splitFull` carries one extra (possibly empty) final segment that
`getlines` drops exactly when it is empty at the very end of input. -/
def splitFull : List Char → List (List Char)
  | [] => [[]]
  | c :: rest =>
    if c = ';' then [] :: splitFull rest
    else
      match splitFull rest with
      | [] => [[c]]
      | s :: ss => (c :: s) :: ss

/-- The item sequence produced by the `while (std::getline(ss, item, ';'))`
loops of `save_job_profile`, `delete_job_profile` and
`refresh_job_profiles_combo`. -/
def getlines (l : List Char) : List (List Char) :=
  if (splitFull l).getLast? = some [] then (splitFull l).dropLast else splitFull l

/-- The `new_list += p + ";"` join used when the registry is rewritten
(lines 764-765, 782-783). -/
def joinSemi (items : List (List Char)) : List Char :=
  (items.map (fun i => i ++ [';'])).flatten

/-- The 27 `set_val` writes of `save_job_profile` (lines 719-751), in
source order: five raw text fields, then every numeric field through
`std::to_string`. -/
def profile_kvs (P : JobParams) : List (List Char × List Char) :=
  [ ("customer_name".data, P.customer_name),
    ("customer_email".data, P.customer_email),
    ("customer_phone".data, P.customer_phone),
    ("job_name".data, P.job_name),
    ("job_description".data, P.job_description),
    ("parts_per_plate".data, renderInt P.parts_per_plate),
    ("num_plates".data, renderInt P.num_plates),
    ("failure_rate".data, toString6 P.failure_rate),
    ("labor_rate".data, toString6 P.labor_rate),
    ("prep_time".data, toString6 P.prep_time),
    ("setup_time".data, toString6 P.setup_time),
    ("finishing_per_part".data, toString6 P.finishing_per_part),
    ("finishing_per_plate".data, toString6 P.finishing_per_plate),
    ("printer_cost".data, toString6 P.printer_cost),
    ("printer_lifespan".data, toString6 P.printer_lifespan),
    ("maintenance_cost".data, toString6 P.maintenance_cost),
    ("power_watts".data, toString6 P.power_watts),
    ("electricity_cost".data, toString6 P.electricity_cost),
    ("bed_cost".data, toString6 P.bed_cost),
    ("bed_lifespan".data, toString6 P.bed_lifespan),
    ("nozzle_cost".data, toString6 P.nozzle_cost),
    ("nozzle_lifespan_kg".data, toString6 P.nozzle_lifespan_kg),
    ("solvent_cost".data, toString6 P.solvent_cost),
    ("solving_time".data, toString6 P.solving_time),
    ("tank_power".data, toString6 P.tank_power),
    ("finishing_materials".data, toString6 P.finishing_materials),
    ("markup_percent".data, toString6 P.markup_percent) ]

/-- Applies a sequence of `config->set(prefix + key, value)` writes. -/
def setAll (s : Store) (pfx : List Char) (kvs : List (List Char × List Char)) : Store :=
  kvs.foldl (fun st kv => st.set (pfx ++ kv.1) kv.2) s

/-- `InvoiceDialog::save_job_profile` (lines 710-771): guard on the empty
name, the 27 field writes, then the registry append performed only when
the name was not already present. The `config->save()` flush has no
observable effect in the store model. -/
def save_job_profile (name : List Char) (P : JobParams) (s : Store) : Store :=
  if name = [] then s
  else
    let s1 := setAll s (jobPfx name) (profile_kvs P)
    let profiles := getlines (s1.get regKey)
    if name ∈ profiles then s1
    else s1.set regKey (joinSemi (profiles ++ [name]))

/-- `InvoiceDialog::delete_job_profile` (lines 773-788): rewrites the
registry keeping every parsed item other than the name. -/
def delete_job_profile (name : List Char) (s : Store) : Store :=
  if name = [] then s
  else s.set regKey (joinSemi ((getlines (s.get regKey)).filter (fun i => ¬ i = name)))

/-- The profile names shown by `refresh_job_profiles_combo`
(lines 790-802): the parsed registry items that are non-empty. -/
def profile_list (s : Store) : List (List Char) :=
  (getlines (s.get regKey)).filter (fun i => ¬ i = [])

/-- The `get_str` accessor of `load_job_profile` (line 665). -/
def get_str (s : Store) (pfx f : List Char) : List Char := s.get (pfx ++ f)

/-- The `get_int` accessor of `load_job_profile` (lines 666-668): an
absent (empty) value yields the supplied default, anything else goes
through `std::stoi`; `Except.error` is the `std::invalid_argument` that
`std::stoi` throws when no conversion is possible. -/
def get_int (s : Store) (pfx f : List Char) (d : ℤ) : Except Unit ℤ :=
  let v := get_str s pfx f
  if v = [] then Except.ok d
  else
    match stoiZ v with
    | some z => Except.ok z
    | none => Except.error ()

/-- The `get_dbl` accessor of `load_job_profile` (lines 669-671), via
`std::stod`. -/
def get_dbl (s : Store) (pfx f : List Char) (d : ℚ) : Except Unit ℚ :=
  let v := get_str s pfx f
  if v = [] then Except.ok d
  else
    match stodQ v with
    | some q => Except.ok q
    | none => Except.error ()

/-- `InvoiceDialog::load_job_profile` (lines 658-708): guard on the empty
name (which leaves the in-memory parameters `P0` untouched), then every
field is assigned from the store — text fields directly, numeric fields
through `get_int`/`get_dbl` with the documented defaults. An exception
escaping any numeric parse aborts the whole load (`Except.error`). -/
def load_job_profile (name : List Char) (s : Store) (P0 : JobParams) : Except Unit JobParams :=
  if name = [] then Except.ok P0
  else
    let pfx := jobPfx name
    do
      let parts_per_plate ← get_int s pfx ("parts_per_plate").data 1
      let num_plates ← get_int s pfx ("num_plates").data 1
      let failure_rate ← get_dbl s pfx ("failure_rate").data 5
      let labor_rate ← get_dbl s pfx ("labor_rate").data 20
      let prep_time ← get_dbl s pfx ("prep_time").data 15
      let setup_time ← get_dbl s pfx ("setup_time").data 10
      let finishing_per_part ← get_dbl s pfx ("finishing_per_part").data 5
      let finishing_per_plate ← get_dbl s pfx ("finishing_per_plate").data 0
      let printer_cost ← get_dbl s pfx ("printer_cost").data 300
      let printer_lifespan ← get_dbl s pfx ("printer_lifespan").data 15000
      let maintenance_cost ← get_dbl s pfx ("maintenance_cost").data (1/10)
      let power_watts ← get_dbl s pfx ("power_watts").data 130
      let electricity_cost ← get_dbl s pfx ("electricity_cost").data (15/100)
      let bed_cost ← get_dbl s pfx ("bed_cost").data 30
      let bed_lifespan ← get_dbl s pfx ("bed_lifespan").data 5000
      let nozzle_cost ← get_dbl s pfx ("nozzle_cost").data 2
      let nozzle_lifespan_kg ← get_dbl s pfx ("nozzle_lifespan_kg").data 25
      let solvent_cost ← get_dbl s pfx ("solvent_cost").data 0
      let solving_time ← get_dbl s pfx ("solving_time").data 0
      let tank_power ← get_dbl s pfx ("tank_power").data 0
      let finishing_materials ← get_dbl s pfx ("finishing_materials").data 0
      let markup_percent ← get_dbl s pfx ("markup_percent").data 50
      Except.ok
        { customer_name := get_str s pfx ("customer_name").data
          customer_email := get_str s pfx ("customer_email").data
          customer_phone := get_str s pfx ("customer_phone").data
          job_name := get_str s pfx ("job_name").data
          job_description := get_str s pfx ("job_description").data
          parts_per_plate := parts_per_plate
          num_plates := num_plates
          failure_rate := failure_rate
          labor_rate := labor_rate
          prep_time := prep_time
          setup_time := setup_time
          finishing_per_part := finishing_per_part
          finishing_per_plate := finishing_per_plate
          printer_cost := printer_cost
          printer_lifespan := printer_lifespan
          maintenance_cost := maintenance_cost
          power_watts := power_watts
          electricity_cost := electricity_cost
          bed_cost := bed_cost
          bed_lifespan := bed_lifespan
          nozzle_cost := nozzle_cost
          nozzle_lifespan_kg := nozzle_lifespan_kg
          solvent_cost := solvent_cost
          solving_time := solving_time
          tank_power := tank_power
          finishing_materials := finishing_materials
          markup_percent := markup_percent }

/-- The parameter state produced by loading a freshly saved profile: text
fields survive exactly, `int` fields survive `std::to_string`/`std::stoi`
exactly, `double` fields survive to the six-decimal precision of
`std::to_string`. -/
def roundParams (P : JobParams) : JobParams :=
  { P with
    failure_rate := round6 P.failure_rate
    labor_rate := round6 P.labor_rate
    prep_time := round6 P.prep_time
    setup_time := round6 P.setup_time
    finishing_per_part := round6 P.finishing_per_part
    finishing_per_plate := round6 P.finishing_per_plate
    printer_cost := round6 P.printer_cost
    printer_lifespan := round6 P.printer_lifespan
    maintenance_cost := round6 P.maintenance_cost
    power_watts := round6 P.power_watts
    electricity_cost := round6 P.electricity_cost
    bed_cost := round6 P.bed_cost
    bed_lifespan := round6 P.bed_lifespan
    nozzle_cost := round6 P.nozzle_cost
    nozzle_lifespan_kg := round6 P.nozzle_lifespan_kg
    solvent_cost := round6 P.solvent_cost
    solving_time := round6 P.solving_time
    tank_power := round6 P.tank_power
    finishing_materials := round6 P.finishing_materials
    markup_percent := round6 P.markup_percent }

theorem splitFull_ne_nil : ∀ l : List Char, splitFull l ≠ [] := by
  intro l
  induction l with
  | nil => simp [splitFull]
  | cons c rest ih =>
    simp only [splitFull]
    split
    · simp
    · cases h : splitFull rest with
      | nil => exact absurd h ih
      | cons s ss => simp

theorem splitFull_no_semi : ∀ (l : List Char), ∀ s ∈ splitFull l, ';' ∉ s := by
  intro l
  induction l with
  | nil =>
    intro s hs
    simp [splitFull] at hs
    simp [hs]
  | cons c rest ih =>
    intro s hs
    simp only [splitFull] at hs
    by_cases hc : c = ';'
    · rw [if_pos hc] at hs
      rcases List.mem_cons.mp hs with rfl | h
      · simp
      · exact ih s h
    · rw [if_neg hc] at hs
      cases h : splitFull rest with
      | nil => exact absurd h (splitFull_ne_nil rest)
      | cons s0 ss =>
        rw [h] at hs
        rcases List.mem_cons.mp hs with rfl | hmem
        · intro hcon
          rcases List.mem_cons.mp hcon with heq | hmem0
          · exact hc heq.symm
          · exact ih s0 (h ▸ List.mem_cons_self _ _) hmem0
        · exact ih s (h ▸ List.mem_cons_of_mem _ hmem)

theorem splitFull_append_semi (i rest : List Char) (hi : ';' ∉ i) :
    splitFull (i ++ ';' :: rest) = i :: splitFull rest := by
  induction i with
  | nil => simp [splitFull]
  | cons c t ih =>
    have hc : ¬ c = ';' := fun h => hi (h ▸ List.mem_cons_self _ _)
    have ht : ';' ∉ t := fun h => hi (List.mem_cons_of_mem _ h)
    simp only [List.cons_append, splitFull, if_neg hc, List.append_eq, ih ht]

theorem splitFull_joinSemi (items : List (List Char)) (h : ∀ i ∈ items, ';' ∉ i) :
    splitFull (joinSemi items) = items ++ [[]] := by
  induction items with
  | nil => simp [joinSemi, splitFull]
  | cons i t ih =>
    have hji : joinSemi (i :: t) = i ++ ';' :: joinSemi t := by
      simp [joinSemi]
    rw [hji, splitFull_append_semi i _ (h i (List.mem_cons_self _ _)),
      ih (fun x hx => h x (List.mem_cons_of_mem _ hx))]
    rfl

theorem getlines_joinSemi (items : List (List Char)) (h : ∀ i ∈ items, ';' ∉ i) :
    getlines (joinSemi items) = items := by
  unfold getlines
  rw [splitFull_joinSemi items h]
  rw [if_pos (by simp), List.dropLast_concat]

theorem getlines_no_semi {l : List Char} {s : List Char} (hs : s ∈ getlines l) : ';' ∉ s := by
  unfold getlines at hs
  split at hs
  · exact splitFull_no_semi l s (List.dropLast_subset _ hs)
  · exact splitFull_no_semi l s hs

theorem get_set_same (s : Store) (k v : List Char) : (s.set k v).get k = v := by
  simp [Store.get, Store.set]

theorem get_set_ne (s : Store) (k k' v : List Char) (h : ¬ k' = k) :
    (s.set k v).get k' = s.get k' := by
  simp [Store.get, Store.set, h]

theorem key_append_inj {pfx f g : List Char} (h : pfx ++ f = pfx ++ g) : f = g :=
  List.append_cancel_left h

theorem regKey_ne_field (name f : List Char) : ¬ regKey = jobPfx name ++ f := by
  intro h
  have h8 := congrArg (fun l => l[8]?) h
  have hl : (jobPfx name ++ f)[8]? = some 'j' := by
    have heq : jobPfx name ++ f = "invoice_job_".data ++ (name ++ ("_".data ++ f)) := by
      simp [jobPfx]
    rw [heq]
    rw [List.getElem?_append_left (by decide)]
    decide
  simp only [hl] at h8
  exact absurd h8 (by decide)

theorem get_setAll_other (pfx : List Char) (kvs : List (List Char × List Char)) (s : Store)
    (k : List Char) (h : ∀ kv ∈ kvs, ¬ k = pfx ++ kv.1) :
    (setAll s pfx kvs).get k = s.get k := by
  induction kvs generalizing s with
  | nil => rfl
  | cons kv t ih =>
    show (setAll (s.set (pfx ++ kv.1) kv.2) pfx t).get k = _
    rw [ih _ (fun x hx => h x (List.mem_cons_of_mem _ hx)),
      get_set_ne _ _ _ _ (h kv (List.mem_cons_self _ _))]

theorem get_setAll_of_mem (pfx : List Char) (kvs : List (List Char × List Char)) (s : Store)
    (f v : List Char) (hmem : (f, v) ∈ kvs) (hnd : (kvs.map Prod.fst).Nodup) :
    (setAll s pfx kvs).get (pfx ++ f) = v := by
  induction kvs generalizing s with
  | nil => simp at hmem
  | cons kv t ih =>
    rw [List.map_cons, List.nodup_cons] at hnd
    rcases List.mem_cons.mp hmem with heq | hmem'
    · rcases heq with rfl
      show (setAll (s.set (pfx ++ f) v) pfx t).get (pfx ++ f) = v
      have hf : ∀ kv ∈ t, ¬ (pfx ++ f) = pfx ++ kv.1 := by
        intro kv hkv heq
        exact hnd.1 (key_append_inj heq ▸ List.mem_map.mpr ⟨kv, hkv, rfl⟩)
      rw [get_setAll_other _ _ _ _ hf, get_set_same]
    · show (setAll (s.set (pfx ++ kv.1) kv.2) pfx t).get (pfx ++ f) = v
      exact ih _ hmem' hnd.2

theorem renderInt_ne_nil (i : ℤ) : renderInt i ≠ [] := by
  unfold renderInt
  split
  · simp
  · exact renderNat_ne_nil _

theorem toString6_ne_nil (q : ℚ) : toString6 q ≠ [] := by
  unfold toString6
  split
  · simp
  · intro h
    exact renderNat_ne_nil _ (List.append_eq_nil.mp h).1

theorem get_int_saved (s : Store) (pfx f : List Char) (d : ℤ) (i : ℤ)
    (hv : get_str s pfx f = renderInt i) : get_int s pfx f d = Except.ok i := by
  simp only [get_int, hv, if_neg (renderInt_ne_nil i), stoiZ_renderInt]

theorem get_dbl_saved (s : Store) (pfx f : List Char) (d : ℚ) (q : ℚ) (hq : 0 ≤ q)
    (hv : get_str s pfx f = toString6 q) : get_dbl s pfx f d = Except.ok (round6 q) := by
  simp only [get_dbl, hv, if_neg (toString6_ne_nil q), stodQ_toString6 hq]

theorem get_int_absent (s : Store) (pfx f : List Char) (d : ℤ)
    (hv : get_str s pfx f = []) : get_int s pfx f d = Except.ok d := by
  simp [get_int, hv]

theorem get_dbl_absent (s : Store) (pfx f : List Char) (d : ℚ)
    (hv : get_str s pfx f = []) : get_dbl s pfx f d = Except.ok d := by
  simp [get_dbl, hv]

theorem profile_kvs_keys_nodup (P : JobParams) : ((profile_kvs P).map Prod.fst).Nodup := by
  simp only [profile_kvs, List.map_cons, List.map_nil]
  decide

/-- Every data key written by `save_job_profile` reads back its value. -/
theorem get_save_job_profile (name : List Char) (P : JobParams) (s : Store)
    (hname : ¬ name = []) (f v : List Char) (hmem : (f, v) ∈ profile_kvs P) :
    (save_job_profile name P s).get (jobPfx name ++ f) = v := by
  simp only [save_job_profile, if_neg hname]
  split
  · exact get_setAll_of_mem _ _ _ _ _ hmem (profile_kvs_keys_nodup P)
  · rw [get_set_ne _ _ _ _ (fun h => regKey_ne_field name f h.symm)]
    exact get_setAll_of_mem _ _ _ _ _ hmem (profile_kvs_keys_nodup P)

/-- Loading a name none of whose data keys is present yields empty text
fields and every numeric default. -/
theorem load_job_profile_absent (name : List Char) (s : Store) (P0 : JobParams)
    (hname : ¬ name = []) (habs : ∀ f, get_str s (jobPfx name) f = []) :
    load_job_profile name s P0 = Except.ok defaultParams := by
  simp only [load_job_profile, if_neg hname,
    get_int_absent _ _ _ _ (habs _), get_dbl_absent _ _ _ _ (habs _), habs]
  rfl

/-- CLAIM C3 — For every profile name and parameter assignment (numeric
fields within the nonnegative ranges the spin controls enforce),
`save_job_profile` followed by `load_job_profile` reproduces every field:
text fields exactly, `int` fields exactly, `double` fields to the
six-decimal precision of their `std::to_string` serialization
(`round6`); and for a name none of whose stored keys is present, every
numeric field loads as its documented default (`parts_per_plate 1`,
`num_plates 1`, `failure_rate 5.0`, `markup_percent 50.0`, ...). -/
theorem save_load_roundtrip (name : List Char) (P : JobParams) (s : Store) (P0 : JobParams)
    (hname : ¬ name = [])
    (h1 : 0 ≤ P.failure_rate) (h2 : 0 ≤ P.labor_rate) (h3 : 0 ≤ P.prep_time)
    (h4 : 0 ≤ P.setup_time) (h5 : 0 ≤ P.finishing_per_part) (h6 : 0 ≤ P.finishing_per_plate)
    (h7 : 0 ≤ P.printer_cost) (h8 : 0 ≤ P.printer_lifespan) (h9 : 0 ≤ P.maintenance_cost)
    (h10 : 0 ≤ P.power_watts) (h11 : 0 ≤ P.electricity_cost) (h12 : 0 ≤ P.bed_cost)
    (h13 : 0 ≤ P.bed_lifespan) (h14 : 0 ≤ P.nozzle_cost) (h15 : 0 ≤ P.nozzle_lifespan_kg)
    (h16 : 0 ≤ P.solvent_cost) (h17 : 0 ≤ P.solving_time) (h18 : 0 ≤ P.tank_power)
    (h19 : 0 ≤ P.finishing_materials) (h20 : 0 ≤ P.markup_percent) :
    load_job_profile name (save_job_profile name P s) P0 = Except.ok (roundParams P)
    ∧ (∀ s2 : Store, (∀ f, get_str s2 (jobPfx name) f = []) →
        load_job_profile name s2 P0 = Except.ok defaultParams) := by
  constructor
  · have hget : ∀ f v, (f, v) ∈ profile_kvs P →
        get_str (save_job_profile name P s) (jobPfx name) f = v :=
      fun f v hmem => get_save_job_profile name P s hname f v hmem
    have e01 := hget ("customer_name").data P.customer_name (by simp [profile_kvs])
    have e02 := hget ("customer_email").data P.customer_email (by simp [profile_kvs])
    have e03 := hget ("customer_phone").data P.customer_phone (by simp [profile_kvs])
    have e04 := hget ("job_name").data P.job_name (by simp [profile_kvs])
    have e05 := hget ("job_description").data P.job_description (by simp [profile_kvs])
    have e06 := get_int_saved _ _ _ 1 _ (hget ("parts_per_plate").data
      (renderInt P.parts_per_plate) (by simp [profile_kvs]))
    have e07 := get_int_saved _ _ _ 1 _ (hget ("num_plates").data
      (renderInt P.num_plates) (by simp [profile_kvs]))
    have e08 := get_dbl_saved _ _ _ 5 _ h1 (hget ("failure_rate").data
      (toString6 P.failure_rate) (by simp [profile_kvs]))
    have e09 := get_dbl_saved _ _ _ 20 _ h2 (hget ("labor_rate").data
      (toString6 P.labor_rate) (by simp [profile_kvs]))
    have e10 := get_dbl_saved _ _ _ 15 _ h3 (hget ("prep_time").data
      (toString6 P.prep_time) (by simp [profile_kvs]))
    have e11 := get_dbl_saved _ _ _ 10 _ h4 (hget ("setup_time").data
      (toString6 P.setup_time) (by simp [profile_kvs]))
    have e12 := get_dbl_saved _ _ _ 5 _ h5 (hget ("finishing_per_part").data
      (toString6 P.finishing_per_part) (by simp [profile_kvs]))
    have e13 := get_dbl_saved _ _ _ 0 _ h6 (hget ("finishing_per_plate").data
      (toString6 P.finishing_per_plate) (by simp [profile_kvs]))
    have e14 := get_dbl_saved _ _ _ 300 _ h7 (hget ("printer_cost").data
      (toString6 P.printer_cost) (by simp [profile_kvs]))
    have e15 := get_dbl_saved _ _ _ 15000 _ h8 (hget ("printer_lifespan").data
      (toString6 P.printer_lifespan) (by simp [profile_kvs]))
    have e16 := get_dbl_saved _ _ _ (1/10) _ h9 (hget ("maintenance_cost").data
      (toString6 P.maintenance_cost) (by simp [profile_kvs]))
    have e17 := get_dbl_saved _ _ _ 130 _ h10 (hget ("power_watts").data
      (toString6 P.power_watts) (by simp [profile_kvs]))
    have e18 := get_dbl_saved _ _ _ (15/100) _ h11 (hget ("electricity_cost").data
      (toString6 P.electricity_cost) (by simp [profile_kvs]))
    have e19 := get_dbl_saved _ _ _ 30 _ h12 (hget ("bed_cost").data
      (toString6 P.bed_cost) (by simp [profile_kvs]))
    have e20 := get_dbl_saved _ _ _ 5000 _ h13 (hget ("bed_lifespan").data
      (toString6 P.bed_lifespan) (by simp [profile_kvs]))
    have e21 := get_dbl_saved _ _ _ 2 _ h14 (hget ("nozzle_cost").data
      (toString6 P.nozzle_cost) (by simp [profile_kvs]))
    have e22 := get_dbl_saved _ _ _ 25 _ h15 (hget ("nozzle_lifespan_kg").data
      (toString6 P.nozzle_lifespan_kg) (by simp [profile_kvs]))
    have e23 := get_dbl_saved _ _ _ 0 _ h16 (hget ("solvent_cost").data
      (toString6 P.solvent_cost) (by simp [profile_kvs]))
    have e24 := get_dbl_saved _ _ _ 0 _ h17 (hget ("solving_time").data
      (toString6 P.solving_time) (by simp [profile_kvs]))
    have e25 := get_dbl_saved _ _ _ 0 _ h18 (hget ("tank_power").data
      (toString6 P.tank_power) (by simp [profile_kvs]))
    have e26 := get_dbl_saved _ _ _ 0 _ h19 (hget ("finishing_materials").data
      (toString6 P.finishing_materials) (by simp [profile_kvs]))
    have e27 := get_dbl_saved _ _ _ 50 _ h20 (hget ("markup_percent").data
      (toString6 P.markup_percent) (by simp [profile_kvs]))
    simp only [load_job_profile, if_neg hname, e01, e02, e03, e04, e05, e06, e07, e08, e09,
      e10, e11, e12, e13, e14, e15, e16, e17, e18, e19, e20, e21, e22, e23, e24, e25, e26, e27]
    rfl
  · intro s2 habs
    exact load_job_profile_absent name s2 P0 hname habs

/-- Witness for C3: round-trip of the default parameters under the name
`"p"` on the empty store, plus a default load of an unsaved name. -/
theorem save_load_roundtrip_witness :
    load_job_profile ['p'] (save_job_profile ['p'] defaultParams emptyStore) defaultParams =
      Except.ok (roundParams defaultParams)
    ∧ load_job_profile ['q'] emptyStore defaultParams = Except.ok defaultParams := by
  constructor
  · exact (save_load_roundtrip ['p'] defaultParams emptyStore defaultParams (by simp)
      (by norm_num [defaultParams]) (by norm_num [defaultParams]) (by norm_num [defaultParams])
      (by norm_num [defaultParams]) (by norm_num [defaultParams]) (by norm_num [defaultParams])
      (by norm_num [defaultParams]) (by norm_num [defaultParams]) (by norm_num [defaultParams])
      (by norm_num [defaultParams]) (by norm_num [defaultParams]) (by norm_num [defaultParams])
      (by norm_num [defaultParams]) (by norm_num [defaultParams]) (by norm_num [defaultParams])
      (by norm_num [defaultParams]) (by norm_num [defaultParams]) (by norm_num [defaultParams])
      (by norm_num [defaultParams]) (by norm_num [defaultParams])).1
  · exact (save_load_roundtrip ['q'] defaultParams emptyStore defaultParams (by simp)
      (by norm_num [defaultParams]) (by norm_num [defaultParams]) (by norm_num [defaultParams])
      (by norm_num [defaultParams]) (by norm_num [defaultParams]) (by norm_num [defaultParams])
      (by norm_num [defaultParams]) (by norm_num [defaultParams]) (by norm_num [defaultParams])
      (by norm_num [defaultParams]) (by norm_num [defaultParams]) (by norm_num [defaultParams])
      (by norm_num [defaultParams]) (by norm_num [defaultParams]) (by norm_num [defaultParams])
      (by norm_num [defaultParams]) (by norm_num [defaultParams]) (by norm_num [defaultParams])
      (by norm_num [defaultParams]) (by norm_num [defaultParams])).2 emptyStore (fun f => rfl)

theorem save_registry_mem (name : List Char) (P : JobParams) (s : Store)
    (h1 : ¬ name = []) (hmem : name ∈ getlines (s.get regKey)) :
    (save_job_profile name P s).get regKey = s.get regKey := by
  have hfld : (setAll s (jobPfx name) (profile_kvs P)).get regKey = s.get regKey :=
    get_setAll_other _ _ _ _ (fun kv _ => regKey_ne_field name kv.1)
  simp only [save_job_profile, if_neg h1, hfld, if_pos hmem]

theorem save_registry_new (name : List Char) (P : JobParams) (s : Store)
    (h1 : ¬ name = []) (h2 : ';' ∉ name) (hmem : name ∉ getlines (s.get regKey)) :
    getlines ((save_job_profile name P s).get regKey) = getlines (s.get regKey) ++ [name] := by
  have hfld : (setAll s (jobPfx name) (profile_kvs P)).get regKey = s.get regKey :=
    get_setAll_other _ _ _ _ (fun kv _ => regKey_ne_field name kv.1)
  simp only [save_job_profile, if_neg h1, hfld, if_neg hmem, get_set_same]
  refine getlines_joinSemi _ ?_
  intro i hi
  rcases List.mem_append.mp hi with h | h
  · exact getlines_no_semi h
  · rcases List.mem_singleton.mp h with rfl
    exact h2

theorem delete_registry (name : List Char) (s : Store) (h1 : ¬ name = []) :
    getlines ((delete_job_profile name s).get regKey) =
      (getlines (s.get regKey)).filter (fun i => ¬ i = name) := by
  simp only [delete_job_profile, if_neg h1, get_set_same]
  exact getlines_joinSemi _ (fun i hi => getlines_no_semi (List.mem_filter.mp hi).1)

/-- The states reachable from an empty registry by sequences of
`save_job_profile` / `delete_job_profile` calls whose names are non-empty
and free of the `';'` delimiter. -/
inductive ReachReg : Store → Prop where
  | base (s : Store) (h : s.get regKey = []) : ReachReg s
  | save (name : List Char) (P : JobParams) (s : Store) (h1 : ¬ name = [])
      (h2 : ';' ∉ name) (hr : ReachReg s) : ReachReg (save_job_profile name P s)
  | del (name : List Char) (s : Store) (h1 : ¬ name = [])
      (h2 : ';' ∉ name) (hr : ReachReg s) : ReachReg (delete_job_profile name s)

theorem reach_registry_nodup (s : Store) (h : ReachReg s) :
    (getlines (s.get regKey)).Nodup := by
  induction h with
  | base s h =>
    rw [h, show getlines [] = [] from rfl]
    exact List.nodup_nil
  | save name P s h1 h2 hr ih =>
    by_cases hmem : name ∈ getlines (s.get regKey)
    · rw [save_registry_mem name P s h1 hmem]
      exact ih
    · rw [save_registry_new name P s h1 h2 hmem]
      simp [List.nodup_append, ih, hmem]
  | del name s h1 h2 hr ih =>
    rw [delete_registry name s h1]
    exact ih.filter _

/-- COUNTEREXAMPLE to C4 — the single save of the non-empty name `"a;a"`
(which contains the delimiter) starting from the empty store produces the
registry string `"a;a;"`, whose parsed list of non-empty names is
`["a", "a"]` — a duplicate. -/
theorem registry_names_counterexample :
    ¬ ((getlines ((save_job_profile (['a', ';', 'a']) defaultParams emptyStore).get
        regKey)).filter (fun i => ¬ i = [])).Nodup := by
  decide

/-- CLAIM C4 (as amended) — restricted to non-empty names that do not
contain the `';'` delimiter: after every sequence of save/delete calls
from an empty registry the parsed name list (hence also its non-empty
sublist) has no duplicates; saving an already-present name leaves the
registry string unchanged; deleting a name removes exactly its entries
from the parsed list; re-saving a deleted name appends it afresh. -/
theorem registry_invariants :
    (∀ s : Store, ReachReg s →
      (getlines (s.get regKey)).Nodup ∧
      ((getlines (s.get regKey)).filter (fun i => ¬ i = [])).Nodup)
    ∧ (∀ (name : List Char) (P : JobParams) (s : Store), ¬ name = [] →
        name ∈ getlines (s.get regKey) →
        (save_job_profile name P s).get regKey = s.get regKey)
    ∧ (∀ (name : List Char) (s : Store), ¬ name = [] →
        getlines ((delete_job_profile name s).get regKey) =
          (getlines (s.get regKey)).filter (fun i => ¬ i = name))
    ∧ (∀ (name : List Char) (P : JobParams) (s : Store), ¬ name = [] → ';' ∉ name →
        getlines ((save_job_profile name P (delete_job_profile name s)).get regKey) =
          (getlines (s.get regKey)).filter (fun i => ¬ i = name) ++ [name]) := by
  refine ⟨?_, save_registry_mem, delete_registry, ?_⟩
  · intro s h
    exact ⟨reach_registry_nodup s h, (reach_registry_nodup s h).filter _⟩
  · intro name P s h1 h2
    have hnm : name ∉ getlines ((delete_job_profile name s).get regKey) := by
      rw [delete_registry name s h1]
      intro hmem
      simpa using (List.mem_filter.mp hmem).2
    rw [save_registry_new name P _ h1 h2 hnm, delete_registry name s h1]

/-- Witness for C4 (amended): concrete save/delete/re-save run on the
name `"a"` from the empty store. -/
theorem registry_invariants_witness :
    (getlines ((save_job_profile ['a'] defaultParams emptyStore).get regKey)).Nodup
    ∧ getlines ((save_job_profile ['a'] defaultParams
        (delete_job_profile ['a'] emptyStore)).get regKey) =
      (getlines (emptyStore.get regKey)).filter (fun i => ¬ i = ['a']) ++ [['a']] :=
  ⟨(registry_invariants.1 _ (ReachReg.save ['a'] defaultParams emptyStore (by simp)
      (by decide) (ReachReg.base emptyStore rfl))).1,
    registry_invariants.2.2.2 ['a'] defaultParams emptyStore (by simp) (by decide)⟩

/-- COUNTEREXAMPLE to C5 — loading a never-saved (non-empty) name is not
a no-op: with the in-memory customer name `"Bob"` and failure rate 7, the
load overwrites the state with empty text fields and the numeric
defaults. -/
theorem load_unknown_counterexample :
    load_job_profile ['p'] emptyStore
        { defaultParams with customer_name := ("Bob").data, failure_rate := 7 } ≠
      Except.ok { defaultParams with customer_name := ("Bob").data, failure_rate := 7 } := by
  intro h
  rw [load_job_profile_absent ['p'] emptyStore _ (by simp) (fun f => rfl)] at h
  have h2 := congrArg (fun r => (Except.map JobParams.customer_name r)) h
  simp [defaultParams, Except.map] at h2

/-- CLAIM C5 (as amended) — loading a non-empty name none of whose data
keys is present does not leave the in-memory parameters unchanged: it
assigns every field afresh, producing empty text fields and the
documented numeric defaults regardless of the previous state `P0`; the
load is a no-op on the parameters only for the empty profile name. -/
theorem load_unknown_resets (name : List Char) (s : Store) (P0 : JobParams) :
    (¬ name = [] → (∀ f, get_str s (jobPfx name) f = []) →
      load_job_profile name s P0 = Except.ok defaultParams)
    ∧ load_job_profile [] s P0 = Except.ok P0 :=
  ⟨fun h habs => load_job_profile_absent name s P0 h habs, by simp [load_job_profile]⟩

/-- Witness for C5 (amended): loading the unsaved name `"p"` over a
modified in-memory state yields the default parameters. -/
theorem load_unknown_resets_witness :
    load_job_profile ['p'] emptyStore
        { defaultParams with customer_name := ("Bob").data, failure_rate := 7 } =
      Except.ok defaultParams :=
  (load_unknown_resets ['p'] emptyStore _).1 (by simp) (fun f => rfl)

/-- CLAIM C6 (a bug in the code) — a stored numeric field holding the
non-empty unparsable text `"abc"` does not load as the field's default:
`std::stod` finds no conversion and the model's `Except.error` (the
thrown `std::invalid_argument`) escapes `load_job_profile`. -/
theorem malformed_numeric_throws :
    load_job_profile ['p']
        (emptyStore.set (jobPfx ['p'] ++ ("failure_rate").data) (("abc").data))
        defaultParams = Except.error () := by
  have hp1 : get_int (emptyStore.set (jobPfx ['p'] ++ ("failure_rate").data) (("abc").data))
      (jobPfx ['p']) ("parts_per_plate").data 1 = Except.ok 1 :=
    get_int_absent _ _ _ _ (by decide)
  have hp2 : get_int (emptyStore.set (jobPfx ['p'] ++ ("failure_rate").data) (("abc").data))
      (jobPfx ['p']) ("num_plates").data 1 = Except.ok 1 :=
    get_int_absent _ _ _ _ (by decide)
  have hfr : get_dbl (emptyStore.set (jobPfx ['p'] ++ ("failure_rate").data) (("abc").data))
      (jobPfx ['p']) ("failure_rate").data 5 = Except.error () := by
    have hv : get_str (emptyStore.set (jobPfx ['p'] ++ ("failure_rate").data) (("abc").data))
        (jobPfx ['p']) ("failure_rate").data = ("abc").data := by decide
    simp only [get_dbl, hv]
    rfl
  simp only [load_job_profile, if_neg (by simp : ¬ (['p'] : List Char) = []), hp1, hp2, hfr]
  rfl

/-!  The report exporter: `escape_xml` and `export_to_excel`
(lines 832-973). The numeric text renderings of the output stream
(`operator<<` on `double` and `wxString::Format("%.2f")`) are abstracted
as the formatter parameters `fmtD` and `fmt2`; the current date
(`wxDateTime::Now()`) is the input field `date`. -/

/-- `InvoiceDialog::escape_xml` per-character table (lines 835-842),
the `switch` written as an equivalent conditional chain. -/
def escChar (c : Char) : List Char :=
  if c = '&' then ("&amp;").data
  else if c = '<' then ("&lt;").data
  else if c = '>' then ("&gt;").data
  else if c = '"' then ("&quot;").data
  else if c = '\'' then ("&apos;").data
  else [c]

/-- `InvoiceDialog::escape_xml` (lines 832-845): the concatenation of the
per-character replacements in order. -/
def escape_xml (str : List Char) : List Char := (str.map escChar).flatten

/-- Input state read by `export_to_excel`: the business-name text control,
the current job parameters, the current date text, the filament table and
the cached calculation results. -/
structure ExportInput where
  business_name : List Char
  params : JobParams
  date : List Char
  filaments : List FilamentData
  results : CostBreakdown

/-- Everything `export_to_excel` makes externally observable: the stream
writes (one entry per `file <<` statement) and the message boxes shown. -/
structure ExportOutcome where
  written : List (List Char)
  messages : List (List Char)

/-- Lines 853-895: XML prologue, style table, first worksheet opening,
title row and spacer. -/
def xml_prologue : List (List Char) :=
  [ ("<?xml version=\"1.0\"?>\n").data,
    ("<?mso-application progid=\"Excel.Sheet\"?>\n").data,
    ("<Workbook xmlns=\"urn:schemas-microsoft-com:office:spreadsheet\"\n").data,
    (" xmlns:o=\"urn:schemas-microsoft-com:office:office\"\n").data,
    (" xmlns:x=\"urn:schemas-microsoft-com:office:excel\"\n").data,
    (" xmlns:ss=\"urn:schemas-microsoft-com:office:spreadsheet\"\n").data,
    (" xmlns:html=\"http://www.w3.org/TR/REC-html40\">\n").data,
    ("<Styles>\n").data,
    (" <Style ss:ID=\"Default\" ss:Name=\"Normal\">\n").data,
    ("  <Alignment ss:Vertical=\"Bottom\"/>\n").data,
    ("  <Borders/>\n").data,
    ("  <Font ss:FontName=\"Calibri\" x:Family=\"Swiss\" ss:Size=\"11\" ss:Color=\"#000000\"/>\n").data,
    ("  <Interior/>\n").data,
    ("  <NumberFormat/>\n").data,
    ("  <Protection/>\n").data,
    (" </Style>\n").data,
    (" <Style ss:ID=\"sHeader\">\n").data,
    ("  <Font ss:FontName=\"Calibri\" x:Family=\"Swiss\" ss:Size=\"14\" ss:Bold=\"1\"/>\n").data,
    ("  <Alignment ss:Horizontal=\"Center\"/>\n").data,
    (" </Style>\n").data,
    (" <Style ss:ID=\"sBold\">\n").data,
    ("  <Font ss:FontName=\"Calibri\" x:Family=\"Swiss\" ss:Size=\"11\" ss:Bold=\"1\"/>\n").data,
    (" </Style>\n").data,
    (" <Style ss:ID=\"sCurrency\">\n").data,
    ("  <NumberFormat ss:Format=\"$#,##0.00\"/>\n").data,
    (" </Style>\n").data,
    (" <Style ss:ID=\"sCurrencyBold\">\n").data,
    ("  <Font ss:FontName=\"Calibri\" x:Family=\"Swiss\" ss:Size=\"11\" ss:Bold=\"1\"/>\n").data,
    ("  <NumberFormat ss:Format=\"$#,##0.00\"/>\n").data,
    (" </Style>\n").data,
    ("</Styles>\n").data,
    ("<Worksheet ss:Name=\"Invoice\">\n").data,
    ("<Table ss:ExpandedColumnCount=\"5\" x:FullColumns=\"1\" x:FullRows=\"1\" ss:DefaultRowHeight=\"15\">\n").data,
    ("<Column ss:Width=\"150\"/>\n").data,
    ("<Column ss:Width=\"100\"/>\n").data,
    ("<Column ss:Width=\"100\"/>\n").data,
    ("<Row ss:Height=\"20\">\n").data,
    ("<Cell ss:MergeAcross=\"4\" ss:StyleID=\"sHeader\"><Data ss:Type=\"String\">INVOICE</Data></Cell>\n").data,
    ("</Row>\n").data,
    ("<Row><Cell><Data ss:Type=\"String\"></Data></Cell></Row>\n").data ]

/-- The empty spacer row written repeatedly. -/
def blank_row : List Char := ("<Row><Cell><Data ss:Type=\"String\"></Data></Cell></Row>\n").data

/-- Line 897: the business-name row, escaped. -/
def from_row (v : List Char) : List Char :=
  ("<Row><Cell ss:StyleID=\"sBold\"><Data ss:Type=\"String\">From:</Data></Cell><Cell><Data ss:Type=\"String\">").data
    ++ escape_xml v ++ ("</Data></Cell></Row>\n").data

/-- Line 900: the customer-name row, escaped. -/
def to_row (v : List Char) : List Char :=
  ("<Row><Cell ss:StyleID=\"sBold\"><Data ss:Type=\"String\">To:</Data></Cell><Cell><Data ss:Type=\"String\">").data
    ++ escape_xml v ++ ("</Data></Cell></Row>\n").data

/-- Line 901: the customer-email row, escaped. -/
def email_row (v : List Char) : List Char :=
  ("<Row><Cell ss:StyleID=\"sBold\"><Data ss:Type=\"String\">Email:</Data></Cell><Cell><Data ss:Type=\"String\">").data
    ++ escape_xml v ++ ("</Data></Cell></Row>\n").data

/-- Line 902: the customer-phone row, escaped. -/
def phone_row (v : List Char) : List Char :=
  ("<Row><Cell ss:StyleID=\"sBold\"><Data ss:Type=\"String\">Phone:</Data></Cell><Cell><Data ss:Type=\"String\">").data
    ++ escape_xml v ++ ("</Data></Cell></Row>\n").data

/-- Line 905: the job-name row, escaped. -/
def jobname_row (v : List Char) : List Char :=
  ("<Row><Cell ss:StyleID=\"sBold\"><Data ss:Type=\"String\">Job Name:</Data></Cell><Cell><Data ss:Type=\"String\">").data
    ++ escape_xml v ++ ("</Data></Cell></Row>\n").data

/-- Line 906: the job-description row, escaped. -/
def desc_row (v : List Char) : List Char :=
  ("<Row><Cell ss:StyleID=\"sBold\"><Data ss:Type=\"String\">Description:</Data></Cell><Cell><Data ss:Type=\"String\">").data
    ++ escape_xml v ++ ("</Data></Cell></Row>\n").data

/-- Line 907: the date row (the date text is not escaped in the source). -/
def date_row (v : List Char) : List Char :=
  ("<Row><Cell ss:StyleID=\"sBold\"><Data ss:Type=\"String\">Date:</Data></Cell><Cell><Data ss:Type=\"String\">").data
    ++ v ++ ("</Data></Cell></Row>\n").data

/-- Lines 910-915: the line-item table header. -/
def item_header_lines : List (List Char) :=
  [ ("<Row ss:StyleID=\"sBold\">\n").data,
    ("<Cell><Data ss:Type=\"String\">Item</Data></Cell>\n").data,
    ("<Cell><Data ss:Type=\"String\">Quantity</Data></Cell>\n").data,
    ("<Cell><Data ss:Type=\"String\">Unit Price</Data></Cell>\n").data,
    ("<Cell><Data ss:Type=\"String\">Total</Data></Cell>\n").data,
    ("</Row>\n").data ]

/-- Lines 917-923: the single line item (quantity
`parts_per_plate * num_plates`, unit price `m_calc_final_price`, total
`m_calc_total_job_cost`). -/
def line_item_lines (fmtD : ℚ → List Char) (inp : ExportInput) : List (List Char) :=
  [ ("<Row>\n").data,
    ("<Cell><Data ss:Type=\"String\">3D Printed Parts</Data></Cell>\n").data,
    ("<Cell><Data ss:Type=\"Number\">").data
      ++ renderInt (inp.params.parts_per_plate * inp.params.num_plates)
      ++ ("</Data></Cell>\n").data,
    ("<Cell ss:StyleID=\"sCurrency\"><Data ss:Type=\"Number\">").data
      ++ fmtD inp.results.final_price ++ ("</Data></Cell>\n").data,
    ("<Cell ss:StyleID=\"sCurrency\"><Data ss:Type=\"Number\">").data
      ++ fmtD inp.results.total_job_cost ++ ("</Data></Cell>\n").data,
    ("</Row>\n").data ]

/-- The filament-name cell of a material-breakdown row (line 931):
filament name and colour both escaped. -/
def filament_name_line (d : FilamentData) : List Char :=
  ("<Cell><Data ss:Type=\"String\">").data ++ escape_xml d.fil_name ++ (" (").data
    ++ escape_xml d.color ++ (")</Data></Cell>\n").data

/-- Lines 929-934: one material-breakdown row per filament — names and
colours escaped, the weight rendered by `wxString::Format("%.2f g")`
(abstracted as `fmt2` plus the unit suffix). -/
def filament_row (fmt2 : ℚ → List Char) (d : FilamentData) : List (List Char) :=
  [ ("<Row>\n").data,
    filament_name_line d,
    ("<Cell><Data ss:Type=\"String\">").data ++ fmt2 d.weight_g ++ (" g").data
      ++ ("</Data></Cell>\n").data,
    ("</Row>\n").data ]

/-- Lines 936-945: close the first worksheet and open the internal one. -/
def sheet2_header_lines : List (List Char) :=
  [ ("</Table>\n").data,
    ("</Worksheet>\n").data,
    ("<Worksheet ss:Name=\"Internal Cost Breakdown\">\n").data,
    ("<Table ss:ExpandedColumnCount=\"2\" x:FullColumns=\"1\" x:FullRows=\"1\" ss:DefaultRowHeight=\"15\">\n").data,
    ("<Column ss:Width=\"200\"/>\n").data,
    ("<Column ss:Width=\"100\"/>\n").data,
    ("<Row ss:StyleID=\"sBold\"><Cell><Data ss:Type=\"String\">INTERNAL COST BREAKDOWN</Data></Cell></Row>\n").data,
    ("<Row><Cell><Data ss:Type=\"String\"></Data></Cell></Row>\n").data ]

/-- The `add_cost_row` lambda of lines 947-952: a label (constant, not
escaped in the source) and a currency cell. -/
def add_cost_row (fmtD : ℚ → List Char) (label : List Char) (v : ℚ) : List (List Char) :=
  [ ("<Row>\n").data,
    ("<Cell><Data ss:Type=\"String\">").data ++ label ++ ("</Data></Cell>\n").data,
    ("<Cell ss:StyleID=\"sCurrency\"><Data ss:Type=\"Number\">").data ++ fmtD v
      ++ ("</Data></Cell>\n").data,
    ("</Row>\n").data ]

/-- Lines 966-969: closing tags. -/
def closing_lines : List (List Char) :=
  [ ("</Table>\n").data, ("</Worksheet>\n").data, ("</Workbook>\n").data ]

/-- The full document written by `export_to_excel` once the stream is
open (lines 853-969), one list entry per `file <<` statement. -/
def renderInvoice (fmtD fmt2 : ℚ → List Char) (inp : ExportInput) : List (List Char) :=
  xml_prologue
  ++ [ from_row inp.business_name, blank_row,
       to_row inp.params.customer_name,
       email_row inp.params.customer_email,
       phone_row inp.params.customer_phone, blank_row,
       jobname_row inp.params.job_name,
       desc_row inp.params.job_description,
       date_row inp.date, blank_row ]
  ++ item_header_lines
  ++ line_item_lines fmtD inp
  ++ [ blank_row, blank_row,
       ("<Row ss:StyleID=\"sBold\"><Cell><Data ss:Type=\"String\">Material Breakdown</Data></Cell></Row>\n").data ]
  ++ (inp.filaments.map (filament_row fmt2)).flatten
  ++ sheet2_header_lines
  ++ add_cost_row fmtD ("Material Cost").data inp.results.material_cost
  ++ add_cost_row fmtD ("Labor Cost").data inp.results.labor_cost
  ++ add_cost_row fmtD ("Machine Cost").data inp.results.machine_cost
  ++ add_cost_row fmtD ("Tooling Cost").data inp.results.tooling_cost
  ++ add_cost_row fmtD ("Post-Processing Cost").data inp.results.postprocess_cost
  ++ [ blank_row ]
  ++ add_cost_row fmtD ("Subtotal").data inp.results.subtotal
  ++ add_cost_row fmtD ("Failure Adjustment").data inp.results.failure_adjustment
  ++ add_cost_row fmtD ("Markup Amount").data inp.results.markup_amount
  ++ [ blank_row ]
  ++ add_cost_row fmtD ("Total Job Cost").data inp.results.total_job_cost
  ++ closing_lines

/-- `InvoiceDialog::export_to_excel` (lines 847-973): if the output
stream is not OK the function returns immediately (nothing written, no
message of any kind, and a `void` return that carries no failure result);
otherwise it writes the whole document and shows the success message
box. -/
def export_to_excel (streamOk : Bool) (fmtD fmt2 : ℚ → List Char) (inp : ExportInput) :
    ExportOutcome :=
  if streamOk = false then { written := [], messages := [] }
  else
    { written := renderInvoice fmtD fmt2 inp,
      messages := [("Invoice exported successfully.").data] }

/-- A concrete export input for closed instances. -/
def exInp0 : ExportInput :=
  { business_name := []
    params := defaultParams
    date := []
    filaments := []
    results := calculate_costs defaultParams [] 0 }

/-- A concrete filament entry. -/
def fd0 : FilamentData :=
  { extruder_id := 0
    fil_name := ("PLA").data
    color := ("#808080").data
    weight_g := 0
    cost_per_kg := 20
    calculated_cost := 0 }

/-- A concrete export input with one filament entry. -/
def exInp1 : ExportInput :=
  { exInp0 with filaments := [fd0] }

/-- COUNTEREXAMPLE to C8 — when the output stream cannot be opened,
`export_to_excel` writes nothing (that part of the claim holds) but also
reports nothing: the function returns `void` and shows no message box of
any kind, so no failure result reaches the caller. -/
theorem export_failure_counterexample :
    (export_to_excel false (fun _ => []) (fun _ => []) exInp0).messages = []
    ∧ (export_to_excel false (fun _ => []) (fun _ => []) exInp0).written = [] :=
  ⟨rfl, rfl⟩

/-- CLAIM C8 (as amended) — when the output stream cannot be opened,
`export_to_excel` returns immediately having written nothing and shown no
message: the failure is silent (no failure result reaches the caller,
whose return type is `void`); the export never succeeds partially, and
the success message appears exactly when the stream opened and the whole
document was written. -/
theorem export_stream_guard (fmtD fmt2 : ℚ → List Char) (inp : ExportInput) :
    (export_to_excel false fmtD fmt2 inp).written = []
    ∧ (export_to_excel false fmtD fmt2 inp).messages = []
    ∧ (export_to_excel true fmtD fmt2 inp).written = renderInvoice fmtD fmt2 inp
    ∧ (export_to_excel true fmtD fmt2 inp).messages =
        [("Invoice exported successfully.").data] :=
  ⟨rfl, rfl, rfl, rfl⟩

/-- CLAIM C9 — `escape_xml` replaces exactly the five reserved markup
characters by their entities and leaves every other character unchanged
(it distributes over concatenation); the spec's example renders as
stated; and the free-text fields embedded in the exported report
(business name, customer name, job name, description, filament name and
colour) all pass through `escape_xml`. -/
theorem escape_xml_correct :
    (∀ c : Char, ¬ c = '&' → ¬ c = '<' → ¬ c = '>' → ¬ c = '"' → ¬ c = '\'' →
      escChar c = [c])
    ∧ (escChar '&' = ("&amp;").data ∧ escChar '<' = ("&lt;").data
        ∧ escChar '>' = ("&gt;").data ∧ escChar '"' = ("&quot;").data
        ∧ escChar '\'' = ("&apos;").data)
    ∧ (∀ a b : List Char, escape_xml (a ++ b) = escape_xml a ++ escape_xml b)
    ∧ escape_xml (("Tom & Jerry").data ++ '\'' :: ("s \"Test\"").data)
        = ("Tom &amp; Jerry&apos;s &quot;Test&quot;").data
    ∧ (∀ (fmtD fmt2 : ℚ → List Char) (inp : ExportInput),
        from_row inp.business_name ∈ renderInvoice fmtD fmt2 inp
        ∧ to_row inp.params.customer_name ∈ renderInvoice fmtD fmt2 inp
        ∧ jobname_row inp.params.job_name ∈ renderInvoice fmtD fmt2 inp
        ∧ desc_row inp.params.job_description ∈ renderInvoice fmtD fmt2 inp
        ∧ ∀ d ∈ inp.filaments, filament_name_line d ∈ renderInvoice fmtD fmt2 inp) := by
  refine ⟨?_, ⟨rfl, rfl, rfl, rfl, rfl⟩, ?_, by decide, ?_⟩
  · intro c h1 h2 h3 h4 h5
    simp [escChar, h1, h2, h3, h4, h5]
  · intro a b
    simp [escape_xml]
  · intro fmtD fmt2 inp
    refine ⟨by simp [renderInvoice], by simp [renderInvoice], by simp [renderInvoice],
      by simp [renderInvoice], ?_⟩
    intro d hd
    have h2 : filament_name_line d ∈ (inp.filaments.map (filament_row fmt2)).flatten :=
      List.mem_flatten.mpr ⟨filament_row fmt2 d, List.mem_map.mpr ⟨d, hd, rfl⟩,
        by simp [filament_row]⟩
    simp only [renderInvoice, List.mem_append]
    tauto

/-- Witness for C9: an untouched character, and the filament row of a
concrete one-filament export. -/
theorem escape_xml_correct_witness :
    escChar 'x' = ['x']
    ∧ filament_name_line fd0 ∈ renderInvoice (fun _ => []) (fun _ => []) exInp1 :=
  ⟨escape_xml_correct.1 'x' (by decide) (by decide) (by decide) (by decide) (by decide),
    (escape_xml_correct.2.2.2.2 (fun _ => []) (fun _ => []) exInp1).2.2.2.2 _
      (by simp [exInp1])⟩

/-- CLAIM C1 — For every parameter set and filament list, with `subtotal`
the sum of the five cost categories: when the failure-rate fraction
(`failure_rate / 100`) lies in `[0, 1)`, the adjustment computed by
`calculate_costs` equals `subtotal * fr / (1 - fr)` and is nonnegative for
nonnegative subtotal; when the fraction is `≥ 1`, the adjustment is
exactly `0`. -/
theorem failure_adjustment_correct (P : JobParams) (fil : List FilamentData) (t : ℚ) :
    (calculate_costs P fil t).subtotal =
      (calculate_costs P fil t).material_cost + (calculate_costs P fil t).labor_cost +
      (calculate_costs P fil t).machine_cost + (calculate_costs P fil t).tooling_cost +
      (calculate_costs P fil t).postprocess_cost
    ∧ (0 ≤ P.failure_rate / 100 → P.failure_rate / 100 < 1 →
        (calculate_costs P fil t).failure_adjustment =
          (calculate_costs P fil t).subtotal * (P.failure_rate / 100) / (1 - P.failure_rate / 100)
        ∧ (0 ≤ (calculate_costs P fil t).subtotal → 0 ≤ (calculate_costs P fil t).failure_adjustment))
    ∧ (1 ≤ P.failure_rate / 100 → (calculate_costs P fil t).failure_adjustment = 0) := by
  have hfa : (calculate_costs P fil t).failure_adjustment =
      (if P.failure_rate / 100 < 1 then
        (calculate_costs P fil t).subtotal / (1 - P.failure_rate / 100) -
          (calculate_costs P fil t).subtotal
      else 0) := rfl
  refine ⟨rfl, ?_, ?_⟩
  · intro h0 h1
    have hne : (1 : ℚ) - P.failure_rate / 100 ≠ 0 := by linarith
    have hadj : (calculate_costs P fil t).failure_adjustment =
        (calculate_costs P fil t).subtotal * (P.failure_rate / 100) / (1 - P.failure_rate / 100) := by
      rw [hfa, if_pos h1]
      have hne' : (100 : ℚ) - P.failure_rate ≠ 0 := sub_ne_zero.mpr (ne_of_gt (by linarith))
      field_simp
      ring
    refine ⟨hadj, fun hs => ?_⟩
    rw [hadj]
    apply div_nonneg (mul_nonneg hs h0) (by linarith)
  · intro h1
    rw [hfa, if_neg (not_lt.mpr h1)]

/-- Witness for C1 at the spec's worked example: failure rate 5 %. -/
theorem failure_adjustment_correct_witness :
    0 ≤ (defaultParams.failure_rate) / 100 ∧ (defaultParams.failure_rate) / 100 < 1 ∧
    (calculate_costs defaultParams [] 2).failure_adjustment =
      (calculate_costs defaultParams [] 2).subtotal * (defaultParams.failure_rate / 100) /
        (1 - defaultParams.failure_rate / 100) :=
  ⟨by norm_num [defaultParams], by norm_num [defaultParams],
    ((failure_adjustment_correct defaultParams [] 2).2.1
      (by norm_num [defaultParams]) (by norm_num [defaultParams])).1⟩

/-- CLAIM C7 — `cost_per_part` equals the total plate cost (subtotal plus
failure adjustment) divided by `parts_per_plate` when that count is
positive, and equals the total plate cost itself when the count is zero;
the divisor used is never zero. -/
theorem cost_per_part_guarded (P : JobParams) (fil : List FilamentData) (t : ℚ) :
    (0 < P.parts_per_plate →
      (calculate_costs P fil t).cost_per_part =
        ((calculate_costs P fil t).subtotal + (calculate_costs P fil t).failure_adjustment) /
          (P.parts_per_plate : ℚ)
      ∧ (P.parts_per_plate : ℚ) ≠ 0)
    ∧ (P.parts_per_plate = 0 →
      (calculate_costs P fil t).cost_per_part =
        (calculate_costs P fil t).subtotal + (calculate_costs P fil t).failure_adjustment) := by
  have hcpp : (calculate_costs P fil t).cost_per_part =
      (if 0 < P.parts_per_plate then
        ((calculate_costs P fil t).subtotal + (calculate_costs P fil t).failure_adjustment) /
          (P.parts_per_plate : ℚ)
      else (calculate_costs P fil t).subtotal + (calculate_costs P fil t).failure_adjustment) := rfl
  constructor
  · intro hpos
    refine ⟨?_, ?_⟩
    · rw [hcpp, if_pos hpos]
    · exact_mod_cast hpos.ne.symm
  · intro hz
    rw [hcpp, if_neg (by omega)]

/-- Witness for C7 at `parts_per_plate = 1` (the default). -/
theorem cost_per_part_guarded_witness :
    0 < defaultParams.parts_per_plate ∧
    (calculate_costs defaultParams [] 0).cost_per_part =
      ((calculate_costs defaultParams [] 0).subtotal +
        (calculate_costs defaultParams [] 0).failure_adjustment) / (defaultParams.parts_per_plate : ℚ) :=
  ⟨by norm_num [defaultParams],
    ((cost_per_part_guarded defaultParams [] 0).1 (by norm_num [defaultParams])).1⟩

/-- CLAIM C10 — `solvent_cost` is read by `calculate_costs` (line 573) but
never enters any cost formula: two parameter states differing only in
`solvent_cost` produce identical breakdowns (every computed result equal). -/
theorem solvent_cost_never_used (P : JobParams) (x y : ℚ) (fil : List FilamentData) (t : ℚ) :
    calculate_costs { P with solvent_cost := x } fil t =
      calculate_costs { P with solvent_cost := y } fil t := rfl

end Invoice
